import Mathlib

/-!
Shallow embedding of the aircraft performance model in `ac.py` of the
Air-Taxi-Modification repository.  Python floats are modelled as real
numbers, `math.pi` as `Real.pi`.  The `Aircraft` dataclass becomes a
structure holding the ten identity inputs and the nine derived outputs;
`__post_init__` becomes the constructor function `mkAircraft` (and
`mkAircraftCheckpoint` for the `.ipynb_checkpoints/ac-checkpoint.py`
variant, which differs only in the air densities used).  A second
constructor `mkAircraftE` makes the Python division-by-zero exception
explicit via `Except`, checking every denominator in the order the
Python expressions evaluate them.
-/

namespace AirTaxi

noncomputable section

/-- Unit conversion `kmh_in_ms` from ac.py: `kmh / 3.6`. -/
def kmh_in_ms (kmh : ℝ) : ℝ := kmh / 3.6

/-- Method `Aircraft.calc_cL` from ac.py:
`(2 * self.weight.v * 9.81) / (rho * self.wing_area.v * kmh_in_ms(speed.v)**2)`.
The `rho` parameter defaults to 1.225 in the Python signature; here it is
always passed explicitly. -/
def calc_cL (weight wing_area speed rho : ℝ) : ℝ :=
  (2 * weight * 9.81) / (rho * wing_area * kmh_in_ms speed ^ 2)

/-- Method `Aircraft.calc_cD` from ac.py:
`self.cD_0.v + ((cL.v ** 2) / (math.pi * (self.wing_span.v**2 / self.wing_area.v) * self.e.v))`. -/
def calc_cD (cD_0 cL wing_span wing_area e : ℝ) : ℝ :=
  cD_0 + cL ^ 2 / (Real.pi * (wing_span ^ 2 / wing_area) * e)

/-- Method `Aircraft.calc_total_energy` from ac.py (result in kWh):
`((self.cruise_range.v / 1_000_000) * 9.81 * self.weight.v) / (self.eff_total.v * self.LD_cruise.v * 3.6)`. -/
def calc_total_energy (weight cruise_range eff_total LD_cruise : ℝ) : ℝ :=
  ((cruise_range / 1000000) * 9.81 * weight) / (eff_total * LD_cruise * 3.6)

/-- Method `Aircraft.calc_total_power` from ac.py (result in kW):
`((self.weight.v * 9.81) / (self.LD_cruise.v * 1000)) * (kmh_in_ms(self.cruise_speed.v) / self.eff_total.v)`. -/
def calc_total_power (weight cruise_speed eff_total LD_cruise : ℝ) : ℝ :=
  ((weight * 9.81) / (LD_cruise * 1000)) * (kmh_in_ms cruise_speed / eff_total)

/-- The `Aircraft` dataclass: the ten caller-supplied inputs (the `Variable`
wrapper of ac.py carries only display metadata around the numeric `.v`
field, so each field here is the numeric value) together with the nine
derived outputs computed by `__post_init__`. -/
structure Aircraft where
  weight : ℝ
  wing_area : ℝ
  wing_span : ℝ
  cruise_speed : ℝ
  climb_speed : ℝ
  cruise_range : ℝ
  cruise_height : ℝ
  e : ℝ
  cD_0 : ℝ
  eff_total : ℝ
  cL_climb : ℝ
  cD_climb : ℝ
  LD_climb : ℝ
  cL_cruise : ℝ
  cD_cruise : ℝ
  LD_cruise : ℝ
  p_cruise : ℝ
  e_cruise : ℝ
  h2_required : ℝ

/-- Constructor `Aircraft.__post_init__` of ac.py as a total function over ℝ (real
division, so a zero denominator silently yields 0 here; `mkAircraftE`
below models the Python exception instead).  Climb values use the
hardcoded density 0.998, cruise values the `calc_cL` default 1.225. -/
def mkAircraft (weight wing_area wing_span cruise_speed climb_speed
    cruise_range cruise_height e cD_0 eff_total : ℝ) : Aircraft :=
  let cL_climb := calc_cL weight wing_area climb_speed 0.998
  let cD_climb := calc_cD cD_0 cL_climb wing_span wing_area e
  let LD_climb := cL_climb / cD_climb
  let cL_cruise := calc_cL weight wing_area cruise_speed 1.225
  let cD_cruise := calc_cD cD_0 cL_cruise wing_span wing_area e
  let LD_cruise := cL_cruise / cD_cruise
  let p_cruise := calc_total_power weight cruise_speed eff_total LD_cruise
  let e_cruise := calc_total_energy weight cruise_range eff_total LD_cruise
  let h2_required := e_cruise / 33.33
  ⟨weight, wing_area, wing_span, cruise_speed, climb_speed, cruise_range,
   cruise_height, e, cD_0, eff_total, cL_climb, cD_climb, LD_climb,
   cL_cruise, cD_cruise, LD_cruise, p_cruise, e_cruise, h2_required⟩

/-- Constructor `Aircraft.__post_init__` of the checkpoint variant
`.ipynb_checkpoints/ac-checkpoint.py`: climb values use the `calc_cL`
default density 1.225, cruise values the hardcoded 0.909. -/
def mkAircraftCheckpoint (weight wing_area wing_span cruise_speed climb_speed
    cruise_range cruise_height e cD_0 eff_total : ℝ) : Aircraft :=
  let cL_climb := calc_cL weight wing_area climb_speed 1.225
  let cD_climb := calc_cD cD_0 cL_climb wing_span wing_area e
  let LD_climb := cL_climb / cD_climb
  let cL_cruise := calc_cL weight wing_area cruise_speed 0.909
  let cD_cruise := calc_cD cD_0 cL_cruise wing_span wing_area e
  let LD_cruise := cL_cruise / cD_cruise
  let p_cruise := calc_total_power weight cruise_speed eff_total LD_cruise
  let e_cruise := calc_total_energy weight cruise_range eff_total LD_cruise
  let h2_required := e_cruise / 33.33
  ⟨weight, wing_area, wing_span, cruise_speed, climb_speed, cruise_range,
   cruise_height, e, cD_0, eff_total, cL_climb, cD_climb, LD_climb,
   cL_cruise, cD_cruise, LD_cruise, p_cruise, e_cruise, h2_required⟩

/-- Error raised by a failing model construction.  Python's runtime raises
the built-in `ZeroDivisionError` when a division's denominator is zero;
`invalidInputError` is modelled from the spec, which names an
`InvalidInputError` that the code itself never defines or raises — it is
included only so that statements about it can be expressed. -/
inductive PyError where
  | zeroDivisionError
  | invalidInputError
  deriving DecidableEq

/-- Constructor `Aircraft.__post_init__` of ac.py with Python's division
semantics made explicit: every division the Python code performs is
checked in evaluation order, and a zero denominator aborts construction
with `PyError.zeroDivisionError`, exactly as the Python runtime raises
`ZeroDivisionError` out of `__post_init__` and leaves no object behind. -/
def mkAircraftE (weight wing_area wing_span cruise_speed climb_speed
    cruise_range cruise_height e cD_0 eff_total : ℝ) : Except PyError Aircraft :=
  -- cL_climb: (2*W*9.81) / (0.998 * S * (climb_speed/3.6)^2)
  if 0.998 * wing_area * kmh_in_ms climb_speed ^ 2 = 0 then .error .zeroDivisionError else
  let cL_climb := calc_cL weight wing_area climb_speed 0.998
  -- cD_climb: the inner division b^2 / S, then the polar's division
  if wing_area = 0 then .error .zeroDivisionError else
  if Real.pi * (wing_span ^ 2 / wing_area) * e = 0 then .error .zeroDivisionError else
  let cD_climb := calc_cD cD_0 cL_climb wing_span wing_area e
  -- LD_climb: cL_climb / cD_climb
  if cD_climb = 0 then .error .zeroDivisionError else
  let LD_climb := cL_climb / cD_climb
  -- cL_cruise: (2*W*9.81) / (1.225 * S * (cruise_speed/3.6)^2)
  if 1.225 * wing_area * kmh_in_ms cruise_speed ^ 2 = 0 then .error .zeroDivisionError else
  let cL_cruise := calc_cL weight wing_area cruise_speed 1.225
  -- cD_cruise: as for cD_climb
  if Real.pi * (wing_span ^ 2 / wing_area) * e = 0 then .error .zeroDivisionError else
  let cD_cruise := calc_cD cD_0 cL_cruise wing_span wing_area e
  -- LD_cruise: cL_cruise / cD_cruise
  if cD_cruise = 0 then .error .zeroDivisionError else
  let LD_cruise := cL_cruise / cD_cruise
  -- p_cruise: (W*9.81)/(LD_cruise*1000) first, then kmh_in_ms(v)/eff_total
  if LD_cruise * 1000 = 0 then .error .zeroDivisionError else
  if eff_total = 0 then .error .zeroDivisionError else
  let p_cruise := calc_total_power weight cruise_speed eff_total LD_cruise
  -- e_cruise: divided by eff_total*LD_cruise*3.6
  if eff_total * LD_cruise * 3.6 = 0 then .error .zeroDivisionError else
  let e_cruise := calc_total_energy weight cruise_range eff_total LD_cruise
  .ok ⟨weight, wing_area, wing_span, cruise_speed, climb_speed, cruise_range,
    cruise_height, e, cD_0, eff_total, cL_climb, cD_climb, LD_climb,
    cL_cruise, cD_cruise, LD_cruise, p_cruise, e_cruise, e_cruise / 33.33⟩

/-- C1 counterexample: at the claim's literal inputs weight = 1950 kg,
wing_area = 16.3 m², cruise_speed = 250 km/h, ρ = 0.909 kg/m³ the
lift-coefficient computation does not return approximately 0.5834 — it is
not within 0.0005 of it (the actual value is ≈ 0.5354). -/
theorem C1_counterexample : ¬ |calc_cL 1950 16.3 250 0.909 - 0.5834| < 0.0005 := by
  rw [abs_lt]
  norm_num [calc_cL, kmh_in_ms]

/-- C1 (amended): the lift-coefficient computation returns
`(2 * W * 9.81) / (ρ * S * (v / 3.6)^2)`, and at the literal inputs
weight = 1950, wing_area = 16.3, cruise_speed = 250, ρ = 0.909 it returns
approximately 0.5354 to 4 significant figures (not 0.5834). -/
theorem C1_cL_formula :
    (∀ w S v ρ : ℝ, calc_cL w S v ρ = (2 * w * 9.81) / (ρ * S * (v / 3.6) ^ 2)) ∧
    |calc_cL 1950 16.3 250 0.909 - 0.5354| < 0.00005 := by
  constructor
  · intro w S v ρ
    rfl
  · rw [abs_lt]
    constructor <;> norm_num [calc_cL, kmh_in_ms]

/-- C2: the drag-coefficient computation returns
`cD0 + cL^2 / (π * (b^2 / S) * e)`, and the stored climb-phase and
cruise-phase drag coefficients of every constructed model follow this
parabolic drag polar applied to the lift coefficient of the same phase. -/
theorem C2_drag_polar :
    (∀ c0 cL b S ev : ℝ,
      calc_cD c0 cL b S ev = c0 + cL ^ 2 / (Real.pi * (b ^ 2 / S) * ev)) ∧
    (∀ w S b vc vk R hgt ev c0 eff : ℝ,
      (mkAircraft w S b vc vk R hgt ev c0 eff).cD_climb
          = c0 + (mkAircraft w S b vc vk R hgt ev c0 eff).cL_climb ^ 2
              / (Real.pi * (b ^ 2 / S) * ev) ∧
      (mkAircraft w S b vc vk R hgt ev c0 eff).cD_cruise
          = c0 + (mkAircraft w S b vc vk R hgt ev c0 eff).cL_cruise ^ 2
              / (Real.pi * (b ^ 2 / S) * ev)) := by
  exact ⟨fun _ _ _ _ _ => rfl, fun _ _ _ _ _ _ _ _ _ _ => ⟨rfl, rfl⟩⟩

/-- C3: in every constructed model the stored lift-to-drag ratios equal
`cL / cD` of the same phase, and the stored cruise power equals
`((weight * 9.81) / (LD_cruise * 1000)) * ((cruise_speed / 3.6) / eff_total)`
in kW. -/
theorem C3_LD_and_power :
    ∀ w S b vc vk R hgt ev c0 eff : ℝ,
      (mkAircraft w S b vc vk R hgt ev c0 eff).LD_climb
          = (mkAircraft w S b vc vk R hgt ev c0 eff).cL_climb
              / (mkAircraft w S b vc vk R hgt ev c0 eff).cD_climb ∧
      (mkAircraft w S b vc vk R hgt ev c0 eff).LD_cruise
          = (mkAircraft w S b vc vk R hgt ev c0 eff).cL_cruise
              / (mkAircraft w S b vc vk R hgt ev c0 eff).cD_cruise ∧
      (mkAircraft w S b vc vk R hgt ev c0 eff).p_cruise
          = ((w * 9.81) / ((mkAircraft w S b vc vk R hgt ev c0 eff).LD_cruise * 1000))
              * ((vc / 3.6) / eff) := by
  exact fun _ _ _ _ _ _ _ _ _ _ => ⟨rfl, rfl, rfl⟩

/-- C4: in every constructed model the stored cruise energy equals
`((cruise_range / 1_000_000) * 9.81 * weight) / (eff_total * LD_cruise * 3.6)`
in kWh, with cruise_range in meters. -/
theorem C4_energy_formula :
    ∀ w S b vc vk R hgt ev c0 eff : ℝ,
      (mkAircraft w S b vc vk R hgt ev c0 eff).e_cruise
          = ((R / 1000000) * 9.81 * w)
              / (eff * (mkAircraft w S b vc vk R hgt ev c0 eff).LD_cruise * 3.6) := by
  exact fun _ _ _ _ _ _ _ _ _ _ => rfl

/-- C5: in every constructed model the stored hydrogen-mass equivalent is
exactly the stored cruise energy divided by 33.33, with no other
dependence on the inputs. -/
theorem C5_h2_ratio :
    ∀ w S b vc vk R hgt ev c0 eff : ℝ,
      (mkAircraft w S b vc vk R hgt ev c0 eff).h2_required
          = (mkAircraft w S b vc vk R hgt ev c0 eff).e_cruise / 33.33 := by
  exact fun _ _ _ _ _ _ _ _ _ _ => rfl

/-- C7 counterexample: a construction call cannot obtain cruise outputs
computed with ρ = 0.909 — the constructor has no density parameter, the
cruise lift coefficient it stores is always the ρ = 1.225 value, and at
the literal inputs that value differs from the ρ = 0.909 value. -/
theorem C7_counterexample :
    (mkAircraft 1950 16.3 13.1 250 80 370000 3000 0.8 0.03 0.3986).cL_cruise
        = calc_cL 1950 16.3 250 1.225 ∧
    (mkAircraft 1950 16.3 13.1 250 80 370000 3000 0.8 0.03 0.3986).cL_cruise
        ≠ calc_cL 1950 16.3 250 0.909 := by
  refine ⟨rfl, ?_⟩
  show calc_cL 1950 16.3 250 1.225 ≠ calc_cL 1950 16.3 250 0.909
  norm_num [calc_cL, kmh_in_ms]

/-- C7 (amended): the air density ρ is a parameter of the lift-coefficient
helper method only; model construction does not expose it.  Every model
built by ac.py computes its cruise lift coefficient with ρ = 1.225 and its
climb lift coefficient with ρ = 0.998, and every model built by the
checkpoint variant uses ρ = 0.909 for cruise and ρ = 1.225 for climb; the
caller cannot supply a density at construction. -/
theorem C7_density_hardcoded :
    ∀ w S b vc vk R hgt ev c0 eff : ℝ,
      (mkAircraft w S b vc vk R hgt ev c0 eff).cL_cruise = calc_cL w S vc 1.225 ∧
      (mkAircraft w S b vc vk R hgt ev c0 eff).cL_climb = calc_cL w S vk 0.998 ∧
      (mkAircraftCheckpoint w S b vc vk R hgt ev c0 eff).cL_cruise
          = calc_cL w S vc 0.909 ∧
      (mkAircraftCheckpoint w S b vc vk R hgt ev c0 eff).cL_climb
          = calc_cL w S vk 1.225 := by
  exact fun _ _ _ _ _ _ _ _ _ _ => ⟨rfl, rfl, rfl, rfl⟩

/-- C6 counterexample: constructing with wing_area = 0 (all other inputs
the ac.py defaults) does not raise the spec's `InvalidInputError` — no
such error exists in the code; the construction aborts with Python's
built-in `ZeroDivisionError` instead. -/
theorem C6_counterexample :
    mkAircraftE 1980 0 13.1 250 80 370000 3000 0.8 0.03 0.3986
      ≠ Except.error PyError.invalidInputError := by
  simp only [mkAircraftE]
  split_ifs <;> simp

/-- C6 (amended): constructing a model with wing_area = 0, wing_span = 0,
or eff_total = 0 (all other inputs the ac.py defaults) aborts with a
`ZeroDivisionError` — the error actually raised, the code defining no
`InvalidInputError` — and produces no model object, partially derived or
otherwise. -/
theorem C6_zero_inputs_fail :
    mkAircraftE 1980 0 13.1 250 80 370000 3000 0.8 0.03 0.3986
        = Except.error PyError.zeroDivisionError ∧
    mkAircraftE 1980 16.3 0 250 80 370000 3000 0.8 0.03 0.3986
        = Except.error PyError.zeroDivisionError ∧
    mkAircraftE 1980 16.3 13.1 250 80 370000 3000 0.8 0.03 0
        = Except.error PyError.zeroDivisionError := by
  refine ⟨?_, ?_, ?_⟩ <;>
    · simp only [mkAircraftE]
      split_ifs <;> first | rfl | simp_all [kmh_in_ms]

/-- Positivity of the cruise lift-to-drag ratio of the model built from the
ac.py default inputs; shared by the concrete instantiations below. -/
theorem default_LD_cruise_pos :
    0 < (mkAircraft 1980 16.3 13.1 250 80 370000 3000 0.8 0.03 0.3986).LD_cruise := by
  show 0 < calc_cL 1980 16.3 250 1.225
      / calc_cD 0.03 (calc_cL 1980 16.3 250 1.225) 13.1 16.3 0.8
  unfold calc_cD calc_cL kmh_in_ms
  positivity

/-- C8: of two models that differ only in eff_total (both positive, the
shared remaining inputs having positive weight, cruise speed and cruise
range and yielding a positive cruise lift-to-drag ratio), the model with
the strictly larger eff_total has strictly smaller cruise power and
strictly smaller cruise energy. -/
theorem C8_eff_monotone
    (w S b vc vk R hgt ev c0 eff1 eff2 : ℝ)
    (hw : 0 < w) (hvc : 0 < vc) (hR : 0 < R)
    (hLD : 0 < (mkAircraft w S b vc vk R hgt ev c0 eff1).LD_cruise)
    (h1 : 0 < eff1) (h12 : eff1 < eff2) :
    (mkAircraft w S b vc vk R hgt ev c0 eff2).p_cruise
        < (mkAircraft w S b vc vk R hgt ev c0 eff1).p_cruise ∧
    (mkAircraft w S b vc vk R hgt ev c0 eff2).e_cruise
        < (mkAircraft w S b vc vk R hgt ev c0 eff1).e_cruise := by
  set LD := (mkAircraft w S b vc vk R hgt ev c0 eff1).LD_cruise with hLDdef
  constructor
  · show calc_total_power w vc eff2 LD < calc_total_power w vc eff1 LD
    unfold calc_total_power kmh_in_ms
    have hc : 0 < w * 9.81 / (LD * 1000) := by positivity
    have hv : 0 < vc / 3.6 := by positivity
    exact mul_lt_mul_of_pos_left (div_lt_div_of_pos_left hv h1 h12) hc
  · show calc_total_energy w R eff2 LD < calc_total_energy w R eff1 LD
    unfold calc_total_energy
    have hn : 0 < R / 1000000 * 9.81 * w := by positivity
    have hd1 : 0 < eff1 * LD * 3.6 := by positivity
    have hlt : eff1 * LD * 3.6 < eff2 * LD * 3.6 := by
      have := mul_lt_mul_of_pos_right h12 hLD
      nlinarith
    exact div_lt_div_of_pos_left hn hd1 hlt

/-- C8 witness: raising eff_total from the default 0.3986 to 0.5 with all
other inputs at the ac.py defaults strictly lowers both cruise power and
cruise energy. -/
theorem C8_witness :
    (mkAircraft 1980 16.3 13.1 250 80 370000 3000 0.8 0.03 0.5).p_cruise
        < (mkAircraft 1980 16.3 13.1 250 80 370000 3000 0.8 0.03 0.3986).p_cruise ∧
    (mkAircraft 1980 16.3 13.1 250 80 370000 3000 0.8 0.03 0.5).e_cruise
        < (mkAircraft 1980 16.3 13.1 250 80 370000 3000 0.8 0.03 0.3986).e_cruise :=
  C8_eff_monotone 1980 16.3 13.1 250 80 370000 3000 0.8 0.03 0.3986 0.5
    (by norm_num) (by norm_num) (by norm_num) default_LD_cruise_pos
    (by norm_num) (by norm_num)

/-- C9: with all other inputs fixed (positive weight and eff_total, and a
positive cruise lift-to-drag ratio, which is independent of the range),
cruise energy is strictly increasing in cruise_range and is exactly linear
in it: it equals cruise_range times a slope built only from the other
inputs. -/
theorem C9_range_linear
    (w S b vc vk hgt ev c0 eff R1 R2 : ℝ)
    (hw : 0 < w) (heff : 0 < eff)
    (hLD : 0 < (mkAircraft w S b vc vk R1 hgt ev c0 eff).LD_cruise)
    (hR : R1 < R2) :
    (mkAircraft w S b vc vk R1 hgt ev c0 eff).e_cruise
        < (mkAircraft w S b vc vk R2 hgt ev c0 eff).e_cruise ∧
    ∀ R : ℝ, (mkAircraft w S b vc vk R hgt ev c0 eff).e_cruise
        = R * ((9.81 * w)
            / (1000000
                * (eff * (mkAircraft w S b vc vk R1 hgt ev c0 eff).LD_cruise * 3.6))) := by
  set LD := (mkAircraft w S b vc vk R1 hgt ev c0 eff).LD_cruise with hLDdef
  have hlin : ∀ R : ℝ, (mkAircraft w S b vc vk R hgt ev c0 eff).e_cruise
      = R * ((9.81 * w) / (1000000 * (eff * LD * 3.6))) := by
    intro R
    show calc_total_energy w R eff LD = R * ((9.81 * w) / (1000000 * (eff * LD * 3.6)))
    unfold calc_total_energy
    ring
  have hk : 0 < (9.81 * w) / (1000000 * (eff * LD * 3.6)) := by positivity
  refine ⟨?_, hlin⟩
  rw [hlin R1, hlin R2]
  exact mul_lt_mul_of_pos_right hR hk

/-- C9 witness: extending cruise_range from the default 370 km to 500 km
with all other inputs at the ac.py defaults strictly raises cruise
energy. -/
theorem C9_witness :
    (mkAircraft 1980 16.3 13.1 250 80 370000 3000 0.8 0.03 0.3986).e_cruise
        < (mkAircraft 1980 16.3 13.1 250 80 500000 3000 0.8 0.03 0.3986).e_cruise :=
  (C9_range_linear 1980 16.3 13.1 250 80 3000 0.8 0.03 0.3986 370000 500000
    (by norm_num) (by norm_num) default_LD_cruise_pos (by norm_num)).1

/-- C10: in every constructed model with nonzero cruise speed, eff_total
and cruise lift-to-drag ratio, the stored cruise energy equals the stored
cruise power times the cruise duration in hours,
`p_cruise * (cruise_range / (cruise_speed / 3.6)) / 3600`. -/
theorem C10_energy_power_identity
    (w S b vc vk R hgt ev c0 eff : ℝ)
    (hvc : vc ≠ 0) (heff : eff ≠ 0)
    (hLD : (mkAircraft w S b vc vk R hgt ev c0 eff).LD_cruise ≠ 0) :
    (mkAircraft w S b vc vk R hgt ev c0 eff).e_cruise
        = (mkAircraft w S b vc vk R hgt ev c0 eff).p_cruise
            * (R / (vc / 3.6)) / 3600 := by
  set LD := (mkAircraft w S b vc vk R hgt ev c0 eff).LD_cruise with hLDdef
  show calc_total_energy w R eff LD
      = calc_total_power w vc eff LD * (R / (vc / 3.6)) / 3600
  unfold calc_total_energy calc_total_power kmh_in_ms
  field_simp
  ring

/-- C10 witness: the energy–power–duration identity instantiated at the
ac.py default inputs. -/
theorem C10_witness :
    (mkAircraft 1980 16.3 13.1 250 80 370000 3000 0.8 0.03 0.3986).e_cruise
        = (mkAircraft 1980 16.3 13.1 250 80 370000 3000 0.8 0.03 0.3986).p_cruise
            * (370000 / (250 / 3.6)) / 3600 :=
  C10_energy_power_identity 1980 16.3 13.1 250 80 370000 3000 0.8 0.03 0.3986
    (by norm_num) (by norm_num) (ne_of_gt default_LD_cruise_pos)

end

end AirTaxi
